import Mathlib

/-!
Shallow embedding of the gesture-to-interaction pipeline of
src/virtual_piano.py (class VirtualPiano): pointer mapping (two-segment
gamma remap, clamping), pointer smoothing with deadzone, pinch detection
with hysteresis, click edge detection with anchor locking, hit-testing,
and the mode state machine for sheet practice.

Modelling conventions:
- Python floats are modelled as rationals.
- The float power operator used by the gamma remap is passed in as an
  abstract function pw : Q -> Q -> Q (first argument base, second the
  exponent), because the claims only constrain it at the exact points
  0 and 1, where float exponentiation is exact.
- Python int() truncation toward zero is pyInt.
- The 3D thumb-index distance computed at virtual_piano.py:361-364 enters
  each frame observation directly as the field dist, since detect_hand
  only compares this value against the two pinch thresholds.
- pygame.time.get_ticks() millisecond timestamps are Nat values sampled
  once per tick and passed in as the argument now.
-/

namespace VirtualPiano

/-- Screen width in pixels (virtual_piano.py line 26). -/
def SCREEN_WIDTH : Int := 1280

/-- Screen height in pixels (virtual_piano.py line 27). -/
def SCREEN_HEIGHT : Int := 720

/-- UI element visual state (virtual_piano.py lines 42-45). -/
inductive UIState
  | NORMAL
  | HOVER
  | ACTIVE
deriving DecidableEq

/-- Interaction mode (virtual_piano.py lines 47-51). -/
inductive GameMode
  | NORMAL
  | SHEET_SELECT
  | SHEET_PLAY
  | COMPLETE
deriving DecidableEq

/-- Python int() applied to a float: truncation toward zero. -/
def pyInt (q : ℚ) : Int :=
  if 0 ≤ q then ⌊q⌋ else ⌈q⌉

/-- A pygame.Rect: position and size, all integer pixels. -/
structure Rect where
  x : Int
  y : Int
  w : Int
  h : Int
deriving DecidableEq

/-- pygame Rect.collidepoint: a point on the right or bottom edge is not
inside. pygame truncates float arguments to int, so the model takes an
integer point. -/
def collidepoint (r : Rect) (p : Int × Int) : Bool :=
  decide (r.x ≤ p.1 ∧ p.1 < r.x + r.w ∧ r.y ≤ p.2 ∧ p.2 < r.y + r.h)

/-- A sheet of music (virtual_piano.py lines 70-74). -/
structure Sheet where
  name : String
  notes : List String
deriving DecidableEq

/-- The sheet catalog built by create_sheets (virtual_piano.py lines 279-287). -/
def sheets : List Sheet :=
  [⟨"小星星", ["C4", "C4", "G4", "G4", "A4", "A4", "G4",
              "F4", "F4", "E4", "E4", "D4", "D4", "C4"]⟩,
   ⟨"欢乐颂", ["E4", "E4", "F4", "G4", "G4", "F4", "E4", "D4",
              "C4", "C4", "D4", "E4", "E4", "D4", "D4"]⟩,
   ⟨"简单练习", ["C4", "D4", "E4", "F4", "G4", "A4", "B4", "C5"]⟩]

/-- notes_data of create_piano_keys (virtual_piano.py lines 192-206):
note name, frequency, is_black. -/
def notes_data : List (String × ℚ × Bool) :=
  [("C4", 261.63, false),
   ("C#4", 277.18, true),
   ("D4", 293.66, false),
   ("D#4", 311.13, true),
   ("E4", 329.63, false),
   ("F4", 349.23, false),
   ("F#4", 369.99, true),
   ("G4", 392.00, false),
   ("G#4", 415.30, true),
   ("A4", 440.00, false),
   ("A#4", 466.16, true),
   ("B4", 493.88, false),
   ("C5", 523.25, false)]

/-- The keys of the sound dictionary built by generate_sounds
(virtual_piano.py lines 289-305): one sound per piano key note. -/
def soundNotes : List String :=
  notes_data.map (fun t => t.1)

/-- Smoothing factor finger_smooth_alpha = 0.35 (virtual_piano.py line 108). -/
def finger_smooth_alpha : ℚ := 35 / 100

/-- Deadzone radius finger_deadzone = 6 px (virtual_piano.py line 109). -/
def finger_deadzone : ℚ := 6

/-- Click anchor lock duration click_lock_ms = 200 (virtual_piano.py line 112). -/
def click_lock_ms : Nat := 200

/-- pointer_top_margin = 0 (virtual_piano.py line 139). -/
def pointer_top_margin : ℚ := 0

/-- pointer_top_gamma = 1.8 (virtual_piano.py line 140). -/
def pointer_top_gamma : ℚ := 18 / 10

/-- pointer_bottom_gamma = 1.1 (virtual_piano.py line 141). -/
def pointer_bottom_gamma : ℚ := 11 / 10

/-- pinch_on_thresh = 0.065 (virtual_piano.py line 144). -/
def pinch_on_thresh : ℚ := 65 / 1000

/-- pinch_off_thresh = 0.080 (virtual_piano.py line 145). -/
def pinch_off_thresh : ℚ := 80 / 1000

/-- The per-frame mutable state of VirtualPiano that the gesture pipeline
and the interaction state machine read and write (subset of the fields
set up in VirtualPiano.__init__, virtual_piano.py lines 77-146). -/
structure PianoState where
  mode : GameMode
  raw_finger_pos : Option (Int × Int)
  finger_pos : Option (ℚ × ℚ)
  is_finger_bent : Bool
  prev_finger_bent : Bool
  pinch_active : Bool
  click_anchor_pos : Option (Int × Int)
  click_lock_until : Nat
  current_sheet : Option Sheet
  current_note_index : Nat
  complete_popup_timer : Nat
deriving DecidableEq

/-- The state right after VirtualPiano.__init__. -/
def initState : PianoState where
  mode := GameMode.NORMAL
  raw_finger_pos := none
  finger_pos := none
  is_finger_bent := false
  prev_finger_bent := false
  pinch_active := false
  click_anchor_pos := none
  click_lock_until := 0
  current_sheet := none
  current_note_index := 0
  complete_popup_timer := 0

/-- One frame observation when a hand is detected: thumb tip normalized
coordinates tx, ty (landmark 4), and the 3D thumb-index tip distance as
computed at virtual_piano.py lines 361-364. -/
structure HandObs where
  tx : ℚ
  ty : ℚ
  dist : ℚ

/-- Clamp of y_norm to the unit interval (virtual_piano.py lines 335-338). -/
def clampYNorm (y : ℚ) : ℚ :=
  if y < 0 then 0 else if y > 1 then 1 else y

/-- Upper gamma segment, virtual_piano.py line 341. -/
def gammaTopSeg (pw : ℚ → ℚ → ℚ) (y : ℚ) : ℚ :=
  pw (y / (1 / 2)) pointer_top_gamma * (1 / 2)

/-- Lower gamma segment, virtual_piano.py line 343. -/
def gammaBottomSeg (pw : ℚ → ℚ → ℚ) (y : ℚ) : ℚ :=
  1 - pw ((1 - y) / (1 / 2)) pointer_bottom_gamma * (1 / 2)

/-- Two-segment gamma remap y_mapped (virtual_piano.py lines 340-343). -/
def yMappedOf (pw : ℚ → ℚ → ℚ) (y : ℚ) : ℚ :=
  if y ≤ 1 / 2 then gammaTopSeg pw y else gammaBottomSeg pw y

/-- Horizontal pointer coordinate x_screen with boundary clamp
(virtual_piano.py lines 333 and 346). -/
def xScreenOf (tx : ℚ) : Int :=
  max 0 (min (SCREEN_WIDTH - 1) (pyInt (tx * (SCREEN_WIDTH : ℚ))))

/-- Vertical pointer coordinate y_screen: clamp of y_norm, gamma remap,
scale, int(), boundary clamp (virtual_piano.py lines 334-347). -/
def yScreenOf (pw : ℚ → ℚ → ℚ) (ty : ℚ) : Int :=
  let y_norm := clampYNorm ty
  let y_mapped := yMappedOf pw y_norm
  let y_screen := pyInt (pointer_top_margin +
    ((SCREEN_HEIGHT : ℚ) - pointer_top_margin) * y_mapped)
  max 0 (min (SCREEN_HEIGHT - 1) y_screen)

/-- One hysteresis update of _pinch_active from the frame distance
(virtual_piano.py lines 366-371). -/
def pinchStep (active : Bool) (dist : ℚ) : Bool :=
  if active then
    (if dist ≥ pinch_off_thresh then false else true)
  else
    (if dist ≤ pinch_on_thresh then true else false)

/-- detect_hand (virtual_piano.py lines 307-375), hand tracking enabled:
reset finger_pos and is_finger_bent, then if a hand is observed compute
the raw pointer sample, run the smoothing/deadzone update, and run the
pinch hysteresis. -/
def detectHand (pw : ℚ → ℚ → ℚ) (obs : Option HandObs) (s : PianoState) :
    PianoState :=
  let s1 := { s with finger_pos := none, is_finger_bent := false }
  match obs with
  | none => s1
  | some o =>
    let x_screen := xScreenOf o.tx
    let y_screen := yScreenOf pw o.ty
    let fp : ℚ × ℚ :=
      match s1.finger_pos with
      | none => ((x_screen : ℚ), (y_screen : ℚ))
      | some (px, py) =>
        let dx := (x_screen : ℚ) - px
        let dy := (y_screen : ℚ) - py
        if dx * dx + dy * dy ≥ finger_deadzone * finger_deadzone then
          (px * (1 - finger_smooth_alpha) + (x_screen : ℚ) * finger_smooth_alpha,
           py * (1 - finger_smooth_alpha) + (y_screen : ℚ) * finger_smooth_alpha)
        else (px, py)
    let pinch := pinchStep s1.pinch_active o.dist
    { s1 with
      raw_finger_pos := some (x_screen, y_screen)
      finger_pos := some fp
      pinch_active := pinch
      is_finger_bent := pinch }

/-- check_click (virtual_piano.py lines 377-393): rising-edge click
detection; on an edge, capture the anchor from finger_pos (or
raw_finger_pos if finger_pos is unset) and start the lock window; always
update prev_finger_bent. Returns (clicked, new state). -/
def checkClick (now : Nat) (s : PianoState) : Bool × PianoState :=
  if s.is_finger_bent && !s.prev_finger_bent then
    let anchor : Option (Int × Int) :=
      match s.finger_pos with
      | some p => some (pyInt p.1, pyInt p.2)
      | none => s.raw_finger_pos
    let s2 :=
      match anchor with
      | some a =>
        { s with
          click_anchor_pos := some a
          click_lock_until := now + click_lock_ms }
      | none => s
    (true, { s2 with prev_finger_bent := s.is_finger_bent })
  else
    (false, { s with prev_finger_bent := s.is_finger_bent })

/-- get_hit_pos (virtual_piano.py lines 395-403): the anchor while the
lock window is open, otherwise the truncated tracked pointer, otherwise
no position. -/
def getHitPos (now : Nat) (s : PianoState) : Option (Int × Int) :=
  match s.click_anchor_pos with
  | some a =>
    if now < s.click_lock_until then some a
    else
      match s.finger_pos with
      | none => none
      | some p => some (pyInt p.1, pyInt p.2)
  | none =>
    match s.finger_pos with
    | none => none
    | some p => some (pyInt p.1, pyInt p.2)

/-- One gesture frame as executed by the run loop in the modes that call
check_click from update_ui_states (virtual_piano.py lines 676-679 and
409-410): detect_hand on the frame observation, then check_click. -/
def gestureFrame (pw : ℚ → ℚ → ℚ) (now : Nat) (obs : Option HandObs)
    (s : PianoState) : Bool × PianoState :=
  checkClick now (detectHand pw obs s)

/-- Observation with a given pinch distance and a fixed thumb position,
used for distance traces. -/
def obsOf (d : ℚ) : HandObs :=
  ⟨1 / 2, 1 / 2, d⟩

/-- Run a list of detected-hand frames through the gesture pipeline,
collecting the per-frame click events and the final state. -/
def runFrames (pw : ℚ → ℚ → ℚ) (now : Nat) :
    List HandObs → PianoState → List Bool × PianoState
  | [], s => ([], s)
  | o :: os, s =>
    let r := gestureFrame pw now (some o) s
    let rest := runFrames pw now os r.2
    (r.1 :: rest.1, rest.2)

/-- play_note (virtual_piano.py lines 462-476): if the note has a sound,
request playback (side effect external), and in SHEET_PLAY mode with a
current sheet advance current_note_index on a correct note, switching to
COMPLETE with the completion timestamp when the sheet is finished. -/
def playNote (now : Nat) (note : String) (s : PianoState) : PianoState :=
  if note ∈ soundNotes then
    if s.mode = GameMode.SHEET_PLAY then
      match s.current_sheet with
      | some sh =>
        if h : s.current_note_index < sh.notes.length then
          if note = sh.notes.get ⟨s.current_note_index, h⟩ then
            let i2 := s.current_note_index + 1
            if i2 ≥ sh.notes.length then
              { s with
                current_note_index := i2
                mode := GameMode.COMPLETE
                complete_popup_timer := now }
            else
              { s with current_note_index := i2 }
          else s
        else s
      | none => s
    else s
  else s

/-- select_sheet callback (virtual_piano.py lines 653-657). -/
def selectSheet (sh : Sheet) (s : PianoState) : PianoState :=
  { s with
    current_sheet := some sh
    current_note_index := 0
    mode := GameMode.SHEET_PLAY }

/-- exit_sheet_mode callback (virtual_piano.py lines 659-663). -/
def exitSheetMode (s : PianoState) : PianoState :=
  { s with
    mode := GameMode.NORMAL
    current_sheet := none
    current_note_index := 0 }

/-- open_sheet_select callback (virtual_piano.py lines 649-651). -/
def openSheetSelect (s : PianoState) : PianoState :=
  { s with mode := GameMode.SHEET_SELECT }

/-- COMPLETE-mode timed auto-dismiss from the run loop (virtual_piano.py
lines 707-712): 5 seconds after the completion timestamp, exit sheet
mode; in other modes this step does nothing. -/
def completeTick (now : Nat) (s : PianoState) : PianoState :=
  if s.mode = GameMode.COMPLETE then
    if now - s.complete_popup_timer > 5000 then exitSheetMode s else s
  else s

/-- Per-button dispatch rule of update_ui_states (virtual_piano.py lines
423-433): hit-test the position get_hit_pos returns against the button
rect; HOVER on containment, ACTIVE plus callback firing on containment
with a click edge, NORMAL otherwise. Returns (visual state, fires). -/
def buttonDispatch (now : Nat) (s : PianoState) (r : Rect) (clicked : Bool) :
    UIState × Bool :=
  match getHitPos now s with
  | some hp =>
    if collidepoint r hp then
      (if clicked then (UIState.ACTIVE, true) else (UIState.HOVER, false))
    else (UIState.NORMAL, false)
  | none => (UIState.NORMAL, false)

/-- Per-row dispatch rule of draw_sheet_select_popup (virtual_piano.py
lines 596-603): hit-test the tracked pointer finger_pos itself (pygame
truncates the float point) against the row rect; HOVER on containment,
ACTIVE plus select_sheet firing on containment with a click edge, NORMAL
otherwise. Returns (visual state, fires). -/
def rowDispatch (s : PianoState) (r : Rect) (clicked : Bool) :
    UIState × Bool :=
  match s.finger_pos with
  | some p =>
    if collidepoint r (pyInt p.1, pyInt p.2) then
      (if clicked then (UIState.ACTIVE, true) else (UIState.HOVER, false))
    else (UIState.NORMAL, false)
  | none => (UIState.NORMAL, false)

/-- Row dispatch as the spec words it (spec.md section 4.5 item 5 with
section 4.4): rows follow exactly the button rule, hit-testing the
position getHitTestPosition returns. Stated for comparison with
rowDispatch, which is translated from the source. -/
def rowDispatchSpec (now : Nat) (s : PianoState) (r : Rect) (clicked : Bool) :
    UIState × Bool :=
  buttonDispatch now s r clicked

/-! Helper lemmas: projections of one gesture frame. -/

/-- detect_hand with no observed hand only resets finger_pos and
is_finger_bent. -/
theorem detectHand_none (pw : ℚ → ℚ → ℚ) (s : PianoState) :
    detectHand pw none s = { s with finger_pos := none, is_finger_bent := false } :=
  rfl

theorem detectHand_some_pinch (pw : ℚ → ℚ → ℚ) (o : HandObs) (s : PianoState) :
    (detectHand pw (some o) s).pinch_active = pinchStep s.pinch_active o.dist :=
  rfl

theorem detectHand_some_bent (pw : ℚ → ℚ → ℚ) (o : HandObs) (s : PianoState) :
    (detectHand pw (some o) s).is_finger_bent = pinchStep s.pinch_active o.dist :=
  rfl

theorem detectHand_some_prev (pw : ℚ → ℚ → ℚ) (o : HandObs) (s : PianoState) :
    (detectHand pw (some o) s).prev_finger_bent = s.prev_finger_bent :=
  rfl

theorem detectHand_some_raw (pw : ℚ → ℚ → ℚ) (o : HandObs) (s : PianoState) :
    (detectHand pw (some o) s).raw_finger_pos
      = some (xScreenOf o.tx, yScreenOf pw o.ty) :=
  rfl

theorem detectHand_some_finger (pw : ℚ → ℚ → ℚ) (o : HandObs) (s : PianoState) :
    (detectHand pw (some o) s).finger_pos
      = some (((xScreenOf o.tx : ℚ)), ((yScreenOf pw o.ty : ℚ))) :=
  rfl

theorem detectHand_some_anchor (pw : ℚ → ℚ → ℚ) (o : HandObs) (s : PianoState) :
    (detectHand pw (some o) s).click_anchor_pos = s.click_anchor_pos :=
  rfl

theorem detectHand_some_lock (pw : ℚ → ℚ → ℚ) (o : HandObs) (s : PianoState) :
    (detectHand pw (some o) s).click_lock_until = s.click_lock_until :=
  rfl

theorem checkClick_fst (now : Nat) (s : PianoState) :
    (checkClick now s).1 = (s.is_finger_bent && !s.prev_finger_bent) := by
  unfold checkClick
  split <;> simp_all

theorem checkClick_prev (now : Nat) (s : PianoState) :
    (checkClick now s).2.prev_finger_bent = s.is_finger_bent := by
  unfold checkClick
  split
  · split <;> rfl
  · rfl

theorem checkClick_pinch (now : Nat) (s : PianoState) :
    (checkClick now s).2.pinch_active = s.pinch_active := by
  unfold checkClick
  split
  · split
    · rfl
    · cases s.raw_finger_pos <;> rfl
  · rfl

theorem checkClick_finger (now : Nat) (s : PianoState) :
    (checkClick now s).2.finger_pos = s.finger_pos := by
  unfold checkClick
  split
  · split
    · rfl
    · cases s.raw_finger_pos <;> rfl
  · rfl

theorem gestureFrame_some_fst (pw : ℚ → ℚ → ℚ) (now : Nat) (o : HandObs)
    (s : PianoState) :
    (gestureFrame pw now (some o) s).1
      = (pinchStep s.pinch_active o.dist && !s.prev_finger_bent) := by
  unfold gestureFrame
  rw [checkClick_fst, detectHand_some_bent, detectHand_some_prev]

theorem gestureFrame_some_pinch (pw : ℚ → ℚ → ℚ) (now : Nat) (o : HandObs)
    (s : PianoState) :
    (gestureFrame pw now (some o) s).2.pinch_active
      = pinchStep s.pinch_active o.dist := by
  unfold gestureFrame
  rw [checkClick_pinch, detectHand_some_pinch]

theorem gestureFrame_some_prev (pw : ℚ → ℚ → ℚ) (now : Nat) (o : HandObs)
    (s : PianoState) :
    (gestureFrame pw now (some o) s).2.prev_finger_bent
      = pinchStep s.pinch_active o.dist := by
  unfold gestureFrame
  rw [checkClick_prev, detectHand_some_bent]

theorem gestureFrame_none_fst (pw : ℚ → ℚ → ℚ) (now : Nat) (s : PianoState) :
    (gestureFrame pw now none s).1 = false := by
  unfold gestureFrame
  rw [checkClick_fst, detectHand_none]
  rfl

theorem gestureFrame_none_pinch (pw : ℚ → ℚ → ℚ) (now : Nat) (s : PianoState) :
    (gestureFrame pw now none s).2.pinch_active = s.pinch_active := by
  unfold gestureFrame
  rw [checkClick_pinch, detectHand_none]

theorem gestureFrame_none_prev (pw : ℚ → ℚ → ℚ) (now : Nat) (s : PianoState) :
    (gestureFrame pw now none s).2.prev_finger_bent = false := by
  unfold gestureFrame
  rw [checkClick_prev, detectHand_none]

/-- C7: the pinch state transitions only by the hysteresis rule: from
inactive it becomes active exactly when dist is at most the on threshold
0.065, from active it becomes inactive exactly when dist is at least the
off threshold 0.080, and otherwise it is unchanged; consequently a
distance sequence staying strictly between the two thresholds never
changes the active state. -/
theorem pinch_hysteresis_characterization :
    (∀ d : ℚ, pinchStep false d = true ↔ d ≤ pinch_on_thresh)
    ∧ (∀ d : ℚ, pinchStep true d = false ↔ pinch_off_thresh ≤ d)
    ∧ (∀ (ds : List ℚ) (a : Bool),
        (∀ x ∈ ds, pinch_on_thresh < x ∧ x < pinch_off_thresh) →
        ds.foldl pinchStep a = a) := by
  refine ⟨?_, ?_, ?_⟩
  · intro d
    unfold pinchStep
    split <;> simp_all
  · intro d
    unfold pinchStep
    split <;> simp_all
  · intro ds
    induction ds with
    | nil => intro a _; rfl
    | cons x xs ih =>
      intro a h
      have hx := h x (List.mem_cons_self x xs)
      have hstep : pinchStep a x = a := by
        cases a <;> unfold pinchStep <;>
          simp [not_le.mpr hx.1, not_le.mpr hx.2]
      rw [List.foldl_cons, hstep]
      exact ih a (fun y hy => h y (List.mem_cons_of_mem x hy))

/-- Witness for C7 at a concrete in-dead-band trace. -/
theorem pinch_hysteresis_characterization_witness :
    [(7 : ℚ)/100, 75/1000].foldl pinchStep true = true :=
  pinch_hysteresis_characterization.2.2 [(7 : ℚ)/100, 75/1000] true (by
    intro x hx
    fin_cases hx <;> constructor <;>
      norm_num [pinch_on_thresh, pinch_off_thresh])

/-! Helper lemmas: the vertical remap at its boundary points. -/

theorem yScreenOf_at_zero (pw : ℚ → ℚ → ℚ) (h : pw 0 pointer_top_gamma = 0) :
    yScreenOf pw 0 = 0 := by
  norm_num [yScreenOf, clampYNorm, yMappedOf, gammaTopSeg, pointer_top_margin,
    pyInt, SCREEN_HEIGHT, h]

theorem yScreenOf_at_one (pw : ℚ → ℚ → ℚ) (h : pw 0 pointer_bottom_gamma = 0) :
    yScreenOf pw 1 = 719 := by
  norm_num [yScreenOf, clampYNorm, yMappedOf, gammaBottomSeg, pointer_top_margin,
    pyInt, SCREEN_HEIGHT, h]

theorem yScreenOf_at_half (pw : ℚ → ℚ → ℚ) (h : pw 1 pointer_top_gamma = 1) :
    yScreenOf pw (1/2) = 360 := by
  norm_num [yScreenOf, clampYNorm, yMappedOf, gammaTopSeg, pointer_top_margin,
    pyInt, SCREEN_HEIGHT, h]

/-- C9: the vertical remap maps landmark y = 0 to screen y = 0, y = 1 to
screen y = screenHeight - 1 after clamping, and y = 0.5 to exactly
screenHeight / 2 = 360; the two gamma segments agree at the midpoint.
Stated for any power function that is exact at the bases 0 and 1, as
float exponentiation is. -/
theorem gamma_remap_boundary :
    ∀ pw : ℚ → ℚ → ℚ,
      pw 0 pointer_top_gamma = 0 → pw 1 pointer_top_gamma = 1 →
      pw 0 pointer_bottom_gamma = 0 → pw 1 pointer_bottom_gamma = 1 →
      yScreenOf pw 0 = 0
      ∧ yScreenOf pw 1 = SCREEN_HEIGHT - 1
      ∧ yScreenOf pw (1/2) = 360
      ∧ (360 : Int) = SCREEN_HEIGHT / 2
      ∧ gammaTopSeg pw (1/2) = gammaBottomSeg pw (1/2) := by
  intro pw h0t h1t h0b h1b
  refine ⟨yScreenOf_at_zero pw h0t, ?_, yScreenOf_at_half pw h1t, by
    norm_num [SCREEN_HEIGHT], ?_⟩
  · rw [yScreenOf_at_one pw h0b]
    norm_num [SCREEN_HEIGHT]
  · norm_num [gammaTopSeg, gammaBottomSeg, h1t, h1b]

/-- Witness for C9 at the identity power function, which is exact at
bases 0 and 1. -/
theorem gamma_remap_boundary_witness :
    yScreenOf (fun x _ => x) 0 = 0
    ∧ yScreenOf (fun x _ => x) 1 = SCREEN_HEIGHT - 1
    ∧ yScreenOf (fun x _ => x) (1/2) = 360
    ∧ (360 : Int) = SCREEN_HEIGHT / 2
    ∧ gammaTopSeg (fun x _ => x) (1/2) = gammaBottomSeg (fun x _ => x) (1/2) :=
  gamma_remap_boundary (fun x _ => x) rfl rfl rfl rfl

/-- C5: a tick in COMPLETE mode at most 4999 ms after the completion
timestamp keeps the mode COMPLETE; a tick at least 5001 ms after it
switches the mode to NORMAL and destroys the practice session (sheet
cleared, note index reset). The transition is driven by the sampled
clock alone. -/
theorem complete_auto_dismiss :
    ∀ (s : PianoState) (now t0 : Nat),
      s.mode = GameMode.COMPLETE → s.complete_popup_timer = t0 →
      (now ≤ t0 + 4999 → (completeTick now s).mode = GameMode.COMPLETE)
      ∧ (t0 + 5001 ≤ now →
          (completeTick now s).mode = GameMode.NORMAL
          ∧ (completeTick now s).current_sheet = none
          ∧ (completeTick now s).current_note_index = 0) := by
  intro s now t0 hm ht
  constructor
  · intro h
    have hc : ¬ (now - s.complete_popup_timer > 5000) := by omega
    simp [completeTick, hm, hc]
  · intro h
    have hc : now - s.complete_popup_timer > 5000 := by omega
    simp [completeTick, hm, hc, exitSheetMode]

/-- A state sitting in COMPLETE mode with completion timestamp 1000,
used to witness C5. -/
def sCompleteW : PianoState :=
  { initState with
    mode := GameMode.COMPLETE
    complete_popup_timer := 1000
    current_sheet := some ⟨"简单练习", ["C4", "D4"]⟩
    current_note_index := 2 }

/-- Witness for C5 at ticks 4999 ms and 5001 ms after completion. -/
theorem complete_auto_dismiss_witness :
    (completeTick 5999 sCompleteW).mode = GameMode.COMPLETE
    ∧ (completeTick 6001 sCompleteW).mode = GameMode.NORMAL
    ∧ (completeTick 6001 sCompleteW).current_sheet = none :=
  ⟨(complete_auto_dismiss sCompleteW 5999 1000 rfl rfl).1 (by norm_num),
   ((complete_auto_dismiss sCompleteW 6001 1000 rfl rfl).2 (by norm_num)).1,
   ((complete_auto_dismiss sCompleteW 6001 1000 rfl rfl).2 (by norm_num)).2.1⟩

/-- The state right after selecting the two-note practice sheet of the
C4 test scenario. -/
def sPlayW : PianoState :=
  selectSheet ⟨"练习", ["C4", "D4"]⟩ initState

/-- C4: in SHEET_PLAY mode with a current sheet, playing the expected
note sheet.notes[noteIndex] increments noteIndex by exactly one, and the
mode becomes COMPLETE exactly when noteIndex thereby reaches the sheet
length; playing any other note leaves the state unchanged. Concretely,
for the sheet C4, D4: playing C4 then D4 reaches COMPLETE, while playing
D4 first leaves noteIndex = 0 and a subsequent C4 advances it to 1. -/
theorem play_note_progress :
    (∀ (s : PianoState) (sh : Sheet) (note : String) (now : Nat)
        (hm : s.mode = GameMode.SHEET_PLAY) (hs : s.current_sheet = some sh)
        (hi : s.current_note_index < sh.notes.length)
        (hn : note ∈ soundNotes),
        (note = sh.notes.get ⟨s.current_note_index, hi⟩ →
          (playNote now note s).current_note_index = s.current_note_index + 1
          ∧ ((playNote now note s).mode = GameMode.COMPLETE
              ↔ s.current_note_index + 1 = sh.notes.length))
        ∧ (note ≠ sh.notes.get ⟨s.current_note_index, hi⟩ →
          playNote now note s = s))
    ∧ (playNote 0 ("C4") sPlayW).current_note_index = 1
    ∧ (playNote 0 ("D4") (playNote 0 ("C4") sPlayW)).mode = GameMode.COMPLETE
    ∧ (playNote 0 ("D4") sPlayW).current_note_index = 0
    ∧ (playNote 0 ("D4") sPlayW).mode = GameMode.SHEET_PLAY
    ∧ (playNote 0 ("C4") (playNote 0 ("D4") sPlayW)).current_note_index = 1 := by
  refine ⟨?_, by decide, by decide, by decide, by decide, by decide⟩
  intro s sh note now hm hs hi hn
  constructor
  · intro he
    simp only [playNote, if_pos hn, if_pos hm, hs]
    rw [dif_pos hi, if_pos he]
    by_cases hlen : s.current_note_index + 1 ≥ sh.notes.length
    · rw [if_pos hlen]
      refine ⟨rfl, ?_⟩
      simp only [true_iff]
      omega
    · rw [if_neg hlen]
      refine ⟨rfl, ?_⟩
      constructor
      · intro hcontra
        rw [hm] at hcontra
        exact absurd hcontra (by simp)
      · intro hcontra
        omega
  · intro hne
    simp only [playNote, if_pos hn, if_pos hm, hs]
    rw [dif_pos hi, if_neg hne]

/-- Witness for C4: the general part applied to the concrete two-note
sheet with the correct first note. -/
theorem play_note_progress_witness :
    (playNote 77 ("C4") sPlayW).current_note_index
      = sPlayW.current_note_index + 1 :=
  ((play_note_progress.1 sPlayW ⟨"练习", ["C4", "D4"]⟩ ("C4") 77 rfl rfl
    (by decide) (by decide)).1 (by decide)).1

/-- C8: on a click edge the anchor is captured from the tracked pointer
(truncated), or from the last raw sample when the tracked pointer is
unset, and the lock deadline becomes now + 200 ms; while now is inside
the lock window, hit-testing returns the anchor for any state of the
tracked pointer. The anchor is a single slot: the capture holds for any
prior anchor value, so a new click overwrites it. -/
theorem click_anchor_lock :
    (∀ (now : Nat) (s : PianoState) (p : ℚ × ℚ),
        s.is_finger_bent = true → s.prev_finger_bent = false →
        s.finger_pos = some p →
        (checkClick now s).1 = true
        ∧ (checkClick now s).2.click_anchor_pos = some (pyInt p.1, pyInt p.2)
        ∧ (checkClick now s).2.click_lock_until = now + click_lock_ms)
    ∧ (∀ (now : Nat) (s : PianoState) (rp : Int × Int),
        s.is_finger_bent = true → s.prev_finger_bent = false →
        s.finger_pos = none → s.raw_finger_pos = some rp →
        (checkClick now s).1 = true
        ∧ (checkClick now s).2.click_anchor_pos = some rp
        ∧ (checkClick now s).2.click_lock_until = now + click_lock_ms)
    ∧ (∀ (now : Nat) (s : PianoState) (a : Int × Int),
        s.click_anchor_pos = some a → now < s.click_lock_until →
        getHitPos now s = some a) := by
  refine ⟨?_, ?_, ?_⟩
  · intro now s p hb hp hfp
    refine ⟨?_, ?_, ?_⟩ <;> simp [checkClick, hb, hp, hfp]
  · intro now s rp hb hp hfp hraw
    refine ⟨?_, ?_, ?_⟩ <;> simp [checkClick, hb, hp, hfp, hraw]
  · intro now s a ha hlt
    simp [getHitPos, ha, hlt]

/-- A state on a click-edge frame with the tracked pointer at (100, 100),
used to witness C8. -/
def sClickW : PianoState :=
  { initState with
    is_finger_bent := true
    prev_finger_bent := false
    finger_pos := some (100, 100) }

/-- The state one tick after the click of sClickW, with the tracked
pointer moved to (500, 500), used to witness C8. -/
def sMovedW : PianoState :=
  { (checkClick 1000 sClickW).2 with finger_pos := some (500, 500) }

/-- Witness for C8: the click at tick 1000 anchors (100, 100); at tick
1100 the pointer has moved to (500, 500) but hit-testing still returns
(100, 100). -/
theorem click_anchor_lock_witness :
    (checkClick 1000 sClickW).1 = true
    ∧ getHitPos 1100 sMovedW = some (100, 100) := by
  have h1 := click_anchor_lock.1 1000 sClickW (100, 100) rfl rfl rfl
  have hanchor : sMovedW.click_anchor_pos = some (100, 100) := by
    show (checkClick 1000 sClickW).2.click_anchor_pos = some (100, 100)
    rw [h1.2.1]
    norm_num [pyInt]
  have hlock : (1100 : Nat) < sMovedW.click_lock_until := by
    show (1100 : Nat) < (checkClick 1000 sClickW).2.click_lock_until
    rw [h1.2.2]
    norm_num [click_lock_ms]
  exact ⟨h1.1, click_anchor_lock.2.2 1100 sMovedW (100, 100) hanchor hlock⟩

/-- A state whose tracked pointer from the previous frame is (100, 0),
used for the C1 deadzone scenario. -/
def sDeadzoneW : PianoState :=
  { initState with finger_pos := some (100, 0) }

/-- C1 (exhibits the code bug): detect_hand resets finger_pos to None at
the start of every call, so with a hand detected the tracked pointer is
always re-initialized to the raw sample. Here the previous tracked
pointer is (100, 0) and the raw sample is (102, 0), at squared distance
4, strictly inside the 6-pixel deadzone, yet the tracked pointer moves
to (102, 0) instead of staying unchanged. -/
theorem detect_hand_reinitializes_tracked_pointer :
    ∀ pw : ℚ → ℚ → ℚ, pw 0 pointer_top_gamma = 0 →
      (detectHand pw (some ⟨102/1280, 0, 1⟩) sDeadzoneW).finger_pos = some (102, 0)
      ∧ (detectHand pw (some ⟨102/1280, 0, 1⟩) sDeadzoneW).finger_pos ≠ some (100, 0)
      ∧ ((102 : ℚ) - 100) * ((102 : ℚ) - 100) + ((0 : ℚ) - 0) * ((0 : ℚ) - 0)
          < finger_deadzone * finger_deadzone := by
  intro pw h
  have hx : xScreenOf (102/1280) = 102 := by
    norm_num [xScreenOf, pyInt, SCREEN_WIDTH]
  have hy : yScreenOf pw 0 = 0 := yScreenOf_at_zero pw h
  have hfp : (detectHand pw (some ⟨102/1280, 0, 1⟩) sDeadzoneW).finger_pos
      = some (((xScreenOf (102/1280) : ℚ)), ((yScreenOf pw 0 : ℚ))) :=
    detectHand_some_finger pw ⟨102/1280, 0, 1⟩ sDeadzoneW
  rw [hx, hy] at hfp
  refine ⟨?_, ?_, by norm_num [finger_deadzone]⟩
  · rw [hfp]
    norm_num
  · rw [hfp]
    norm_num

/-- Witness for C1 at the identity power function. -/
theorem detect_hand_reinitializes_tracked_pointer_witness :
    (detectHand (fun x _ => x) (some ⟨102/1280, 0, 1⟩) sDeadzoneW).finger_pos
      = some (102, 0)
    ∧ (detectHand (fun x _ => x) (some ⟨102/1280, 0, 1⟩) sDeadzoneW).finger_pos
      ≠ some (100, 0)
    ∧ ((102 : ℚ) - 100) * ((102 : ℚ) - 100) + ((0 : ℚ) - 0) * ((0 : ℚ) - 0)
        < finger_deadzone * finger_deadzone :=
  detect_hand_reinitializes_tracked_pointer (fun x _ => x) rfl

/-- C2 (exhibits the code bug): a pinch at distance 0.05 on frame one, a
lost hand on frame two, and re-detection at distance 0.07 on frame three.
The detector state _pinch_active stays true across the no-hand frame, and
a click edge fires on frame three even though its distance 0.07 exceeds
the on threshold 0.065, so the distance never satisfied the on threshold
from the inactive state after re-detection. -/
theorem pinch_state_not_reset_on_hand_loss :
    ∀ pw : ℚ → ℚ → ℚ,
      ((gestureFrame pw 200 none
          ((gestureFrame pw 100 (some (obsOf (5/100))) initState).2)).2.pinch_active
        = true)
      ∧ ((gestureFrame pw 300 (some (obsOf (7/100)))
            ((gestureFrame pw 200 none
              ((gestureFrame pw 100 (some (obsOf (5/100))) initState).2)).2)).1
        = true)
      ∧ pinch_on_thresh < 7/100 := by
  intro pw
  have hp1 : (gestureFrame pw 100 (some (obsOf (5/100))) initState).2.pinch_active
      = true := by
    rw [gestureFrame_some_pinch]
    show pinchStep false (5/100) = true
    norm_num [pinchStep, pinch_on_thresh]
  have hp2 : (gestureFrame pw 200 none
      ((gestureFrame pw 100 (some (obsOf (5/100))) initState).2)).2.pinch_active
      = true := by
    rw [gestureFrame_none_pinch]
    exact hp1
  have hprev2 : (gestureFrame pw 200 none
      ((gestureFrame pw 100 (some (obsOf (5/100))) initState).2)).2.prev_finger_bent
      = false :=
    gestureFrame_none_prev pw 200 _
  refine ⟨hp2, ?_, by norm_num [pinch_on_thresh]⟩
  rw [gestureFrame_some_fst, hp2, hprev2]
  show (pinchStep true (7/100) && !false) = true
  norm_num [pinchStep, pinch_off_thresh]

/-- A state inside the click-lock window with the anchor at (100, 100)
and the tracked pointer at (500, 500), used for the C3 counterexample. -/
def sRowW : PianoState :=
  { initState with
    click_anchor_pos := some (100, 100)
    click_lock_until := 1000
    finger_pos := some (500, 500) }

/-- A rectangle containing (100, 100) but not (500, 500), used for the
C3 counterexample. -/
def rRowW : Rect := ⟨90, 90, 20, 20⟩

/-- C3 counterexample: at tick 500, inside the lock window, the
source row-dispatch rule hit-tests the tracked pointer (500, 500) and
reports NORMAL, while the spec-worded rule hit-tests the anchored
position (100, 100) and reports HOVER, so the two dispatch rules
disagree. -/
theorem sheet_row_dispatch_differs_from_button_dispatch :
    rowDispatch sRowW rRowW false ≠ rowDispatchSpec 500 sRowW rRowW false := by
  decide

/-- Outside the anchor-lock window, get_hit_pos falls through to the
truncated tracked pointer. -/
theorem getHitPos_of_no_lock (now : Nat) (s : PianoState)
    (h : s.click_anchor_pos = none ∨ s.click_lock_until ≤ now) :
    getHitPos now s
      = match s.finger_pos with
        | none => none
        | some p => some (pyInt p.1, pyInt p.2) := by
  rcases h with h | h
  · simp only [getHitPos, h]
  · cases ha : s.click_anchor_pos with
    | none => simp only [getHitPos, ha]
    | some a =>
      simp only [getHitPos, ha]
      rw [if_neg (by omega)]

/-- C3 amended: row dispatch and spec-worded (button-rule) dispatch agree
on the visual state and on action firing whenever no click-anchor lock
is active, that is when no anchor is set or the lock window has expired. -/
theorem sheet_row_dispatch_agrees_without_anchor_lock :
    ∀ (now : Nat) (s : PianoState) (r : Rect) (clicked : Bool),
      (s.click_anchor_pos = none ∨ s.click_lock_until ≤ now) →
      rowDispatch s r clicked = rowDispatchSpec now s r clicked := by
  intro now s r clicked h
  unfold rowDispatchSpec buttonDispatch
  rw [getHitPos_of_no_lock now s h]
  unfold rowDispatch
  cases s.finger_pos <;> rfl

/-- Witness for C3 amended at a lock-free state. -/
theorem sheet_row_dispatch_agrees_without_anchor_lock_witness :
    rowDispatch { initState with finger_pos := some (100, 100) } rRowW true
      = rowDispatchSpec 0 { initState with finger_pos := some (100, 100) }
          rRowW true :=
  sheet_row_dispatch_agrees_without_anchor_lock 0
    { initState with finger_pos := some (100, 100) } rRowW true (Or.inl rfl)

/-! Helper lemmas and definitions: screen bounds. -/

/-- An integer pixel position inside the screen. -/
def InBoundsI (p : Int × Int) : Prop :=
  0 ≤ p.1 ∧ p.1 ≤ SCREEN_WIDTH - 1 ∧ 0 ≤ p.2 ∧ p.2 ≤ SCREEN_HEIGHT - 1

/-- A rational pixel position inside the screen. -/
def InBoundsQ (p : ℚ × ℚ) : Prop :=
  0 ≤ p.1 ∧ p.1 ≤ ((SCREEN_WIDTH - 1 : Int) : ℚ)
  ∧ 0 ≤ p.2 ∧ p.2 ≤ ((SCREEN_HEIGHT - 1 : Int) : ℚ)

/-- The pointer-position invariant: raw sample, tracked pointer and
click anchor, whenever set, lie inside the screen. -/
def PtrInv (s : PianoState) : Prop :=
  (∀ p, s.raw_finger_pos = some p → InBoundsI p)
  ∧ (∀ p, s.finger_pos = some p → InBoundsQ p)
  ∧ (∀ p, s.click_anchor_pos = some p → InBoundsI p)

theorem clamp_bounds (c v : Int) (hc : 0 ≤ c) :
    0 ≤ max 0 (min c v) ∧ max 0 (min c v) ≤ c :=
  ⟨le_max_left 0 _, max_le hc (min_le_left c v)⟩

theorem xScreenOf_bounds (tx : ℚ) :
    0 ≤ xScreenOf tx ∧ xScreenOf tx ≤ SCREEN_WIDTH - 1 :=
  clamp_bounds _ _ (by norm_num [SCREEN_WIDTH])

theorem yScreenOf_bounds (pw : ℚ → ℚ → ℚ) (ty : ℚ) :
    0 ≤ yScreenOf pw ty ∧ yScreenOf pw ty ≤ SCREEN_HEIGHT - 1 :=
  clamp_bounds _ _ (by norm_num [SCREEN_HEIGHT])

theorem pyInt_bounds {q : ℚ} {c : Int} (h0 : 0 ≤ q) (hc : q ≤ (c : ℚ)) :
    0 ≤ pyInt q ∧ pyInt q ≤ c := by
  unfold pyInt
  rw [if_pos h0]
  constructor
  · exact Int.floor_nonneg.mpr h0
  · calc ⌊q⌋ ≤ ⌊(c : ℚ)⌋ := Int.floor_le_floor hc
      _ = c := Int.floor_intCast c

/-- C10: the screen-bounds invariant holds initially, is preserved by
detect_hand (raw samples are clamped, and the tracked pointer is derived
from clamped values) and by check_click (the anchor is derived from the
tracked pointer or the raw sample), and under it every position
get_hit_pos returns lies inside the screen, 0 to 1279 horizontally and
0 to 719 vertically; the same bound holds for the click anchor whenever
it is set, as part of the invariant. -/
theorem hit_pos_in_screen_bounds :
    PtrInv initState
    ∧ (∀ (pw : ℚ → ℚ → ℚ) (obs : Option HandObs) (s : PianoState),
        PtrInv s → PtrInv (detectHand pw obs s))
    ∧ (∀ (now : Nat) (s : PianoState),
        PtrInv s → PtrInv (checkClick now s).2)
    ∧ (∀ (now : Nat) (s : PianoState) (p : Int × Int),
        PtrInv s → getHitPos now s = some p → InBoundsI p) := by
  refine ⟨?_, ?_, ?_, ?_⟩
  · refine ⟨?_, ?_, ?_⟩ <;> intro p hp <;> simp [initState] at hp
  · intro pw obs s hs
    cases obs with
    | none =>
      refine ⟨fun p hp => hs.1 p hp, ?_, fun p hp => hs.2.2 p hp⟩
      intro p hp
      simp [detectHand] at hp
    | some o =>
      refine ⟨?_, ?_, fun p hp => hs.2.2 p hp⟩
      · intro p hp
        rw [detectHand_some_raw] at hp
        obtain rfl := (Option.some.inj hp).symm
        exact ⟨(xScreenOf_bounds o.tx).1, (xScreenOf_bounds o.tx).2,
          (yScreenOf_bounds pw o.ty).1, (yScreenOf_bounds pw o.ty).2⟩
      · intro p hp
        rw [detectHand_some_finger] at hp
        obtain rfl := (Option.some.inj hp).symm
        refine ⟨?_, ?_, ?_, ?_⟩
        · show (0 : ℚ) ≤ ((xScreenOf o.tx : Int) : ℚ)
          exact_mod_cast (xScreenOf_bounds o.tx).1
        · show ((xScreenOf o.tx : Int) : ℚ) ≤ ((SCREEN_WIDTH - 1 : Int) : ℚ)
          exact_mod_cast (xScreenOf_bounds o.tx).2
        · show (0 : ℚ) ≤ ((yScreenOf pw o.ty : Int) : ℚ)
          exact_mod_cast (yScreenOf_bounds pw o.ty).1
        · show ((yScreenOf pw o.ty : Int) : ℚ) ≤ ((SCREEN_HEIGHT - 1 : Int) : ℚ)
          exact_mod_cast (yScreenOf_bounds pw o.ty).2
  · intro now s hs
    by_cases hcond : (s.is_finger_bent && !s.prev_finger_bent) = true
    · cases hfp : s.finger_pos with
      | some p =>
        have hred : (checkClick now s).2
            = { s with
                click_anchor_pos := some (pyInt p.1, pyInt p.2)
                click_lock_until := now + click_lock_ms
                prev_finger_bent := s.is_finger_bent } := by
          simp [checkClick, hcond, hfp]
        rw [hred]
        refine ⟨fun q hq => hs.1 q hq, fun q hq => hs.2.1 q hq, ?_⟩
        intro q hq
        obtain rfl := (Option.some.inj hq).symm
        have hb := hs.2.1 p hfp
        exact ⟨(pyInt_bounds hb.1 hb.2.1).1, (pyInt_bounds hb.1 hb.2.1).2,
          (pyInt_bounds hb.2.2.1 hb.2.2.2).1, (pyInt_bounds hb.2.2.1 hb.2.2.2).2⟩
      | none =>
        cases hraw : s.raw_finger_pos with
        | some rp =>
          have hred : (checkClick now s).2
              = { s with
                  click_anchor_pos := some rp
                  click_lock_until := now + click_lock_ms
                  prev_finger_bent := s.is_finger_bent } := by
            simp [checkClick, hcond, hfp, hraw]
          rw [hred]
          refine ⟨fun q hq => hs.1 q hq, fun q hq => hs.2.1 q hq, ?_⟩
          intro q hq
          obtain rfl := (Option.some.inj hq).symm
          exact hs.1 _ hraw
        | none =>
          have hred : (checkClick now s).2
              = { s with prev_finger_bent := s.is_finger_bent } := by
            simp [checkClick, hcond, hfp, hraw]
          rw [hred]
          exact ⟨fun q hq => hs.1 q hq, fun q hq => hs.2.1 q hq,
            fun q hq => hs.2.2 q hq⟩
    · have hred : (checkClick now s).2
          = { s with prev_finger_bent := s.is_finger_bent } := by
        simp [checkClick, hcond]
      rw [hred]
      exact ⟨fun q hq => hs.1 q hq, fun q hq => hs.2.1 q hq,
        fun q hq => hs.2.2 q hq⟩
  · intro now s p hs hg
    have hfinger : ∀ q, (match s.finger_pos with
        | none => (none : Option (Int × Int))
        | some fp => some (pyInt fp.1, pyInt fp.2)) = some q → InBoundsI q := by
      intro q hq
      cases hfp : s.finger_pos with
      | none => rw [hfp] at hq; simp at hq
      | some fp =>
        rw [hfp] at hq
        obtain rfl := (Option.some.inj hq).symm
        have hb := hs.2.1 fp hfp
        exact ⟨(pyInt_bounds hb.1 hb.2.1).1, (pyInt_bounds hb.1 hb.2.1).2,
          (pyInt_bounds hb.2.2.1 hb.2.2.2).1, (pyInt_bounds hb.2.2.1 hb.2.2.2).2⟩
    cases ha : s.click_anchor_pos with
    | some a =>
      by_cases hlt : now < s.click_lock_until
      · have : getHitPos now s = some a := by simp [getHitPos, ha, hlt]
        rw [this] at hg
        obtain rfl := (Option.some.inj hg).symm
        exact hs.2.2 _ ha
      · rw [getHitPos_of_no_lock now s (Or.inr (by omega))] at hg
        exact hfinger p hg
    | none =>
      rw [getHitPos_of_no_lock now s (Or.inl ha)] at hg
      exact hfinger p hg

/-- A state with an in-screen anchor inside the lock window, used to
witness C10. -/
def sAnchorW : PianoState :=
  { initState with click_anchor_pos := some (100, 100), click_lock_until := 10 }

/-- Witness for C10: the hit position of sAnchorW at tick 5 is in
bounds. -/
theorem hit_pos_in_screen_bounds_witness :
    InBoundsI (100, 100) :=
  hit_pos_in_screen_bounds.2.2.2 5 sAnchorW (100, 100)
    (by
      refine ⟨?_, ?_, ?_⟩ <;> intro p hp
      · simp [sAnchorW, initState] at hp
      · simp [sAnchorW, initState] at hp
      · obtain rfl := (Option.some.inj hp).symm
        norm_num [InBoundsI, SCREEN_WIDTH, SCREEN_HEIGHT])
    rfl

/-! Helper lemmas: runs of gesture frames over distance traces. -/

theorem runFrames_append (pw : ℚ → ℚ → ℚ) (now : Nat) :
    ∀ (l1 l2 : List HandObs) (s : PianoState),
      runFrames pw now (l1 ++ l2) s
        = ((runFrames pw now l1 s).1
            ++ (runFrames pw now l2 (runFrames pw now l1 s).2).1,
           (runFrames pw now l2 (runFrames pw now l1 s).2).2) := by
  intro l1
  induction l1 with
  | nil => intro l2 s; rfl
  | cons o os ih =>
    intro l2 s
    simp only [List.cons_append, runFrames, List.append_eq, ih]

theorem runFrames_append_fst (pw : ℚ → ℚ → ℚ) (now : Nat)
    (l1 l2 : List HandObs) (s : PianoState) :
    (runFrames pw now (l1 ++ l2) s).1
      = (runFrames pw now l1 s).1
          ++ (runFrames pw now l2 (runFrames pw now l1 s).2).1 :=
  congrArg Prod.fst (runFrames_append pw now l1 l2 s)

theorem run_inactive (pw : ℚ → ℚ → ℚ) (now : Nat) :
    ∀ (ds : List ℚ) (s : PianoState),
      s.pinch_active = false → s.prev_finger_bent = false →
      (∀ x ∈ ds, pinch_on_thresh < x) →
      (runFrames pw now (ds.map obsOf) s).1 = List.replicate ds.length false
      ∧ (runFrames pw now (ds.map obsOf) s).2.pinch_active = false
      ∧ (runFrames pw now (ds.map obsOf) s).2.prev_finger_bent = false := by
  intro ds
  induction ds with
  | nil => intro s hp hv _; exact ⟨rfl, hp, hv⟩
  | cons d ds ih =>
    intro s hp hv h
    have hd := h d (List.mem_cons_self d ds)
    have hstep : pinchStep s.pinch_active (obsOf d).dist = false := by
      rw [hp]
      show pinchStep false d = false
      simp [pinchStep, not_le.mpr hd]
    have hfst : (gestureFrame pw now (some (obsOf d)) s).1 = false := by
      rw [gestureFrame_some_fst, hstep]
      simp
    have hpinch2 : (gestureFrame pw now (some (obsOf d)) s).2.pinch_active
        = false := by
      rw [gestureFrame_some_pinch]
      exact hstep
    have hprev2 : (gestureFrame pw now (some (obsOf d)) s).2.prev_finger_bent
        = false := by
      rw [gestureFrame_some_prev]
      exact hstep
    have ihh := ih (gestureFrame pw now (some (obsOf d)) s).2 hpinch2 hprev2
      (fun x hx => h x (List.mem_cons_of_mem d hx))
    refine ⟨?_, ihh.2.1, ihh.2.2⟩
    show ((gestureFrame pw now (some (obsOf d)) s).1
        :: (runFrames pw now (ds.map obsOf)
              (gestureFrame pw now (some (obsOf d)) s).2).1)
      = List.replicate (ds.length + 1) false
    rw [hfst, ihh.1]
    rfl

theorem run_active_low (pw : ℚ → ℚ → ℚ) (now : Nat) :
    ∀ (ds : List ℚ) (s : PianoState),
      s.pinch_active = true → s.prev_finger_bent = true →
      (∀ x ∈ ds, x ≤ pinch_on_thresh) →
      (runFrames pw now (ds.map obsOf) s).1 = List.replicate ds.length false
      ∧ (runFrames pw now (ds.map obsOf) s).2.pinch_active = true
      ∧ (runFrames pw now (ds.map obsOf) s).2.prev_finger_bent = true := by
  intro ds
  induction ds with
  | nil => intro s hp hv _; exact ⟨rfl, hp, hv⟩
  | cons d ds ih =>
    intro s hp hv h
    have hd := h d (List.mem_cons_self d ds)
    have hoff : ¬ (pinch_off_thresh ≤ d) := by
      have hlt : pinch_on_thresh < pinch_off_thresh := by
        norm_num [pinch_on_thresh, pinch_off_thresh]
      intro hcontra
      linarith
    have hstep : pinchStep s.pinch_active (obsOf d).dist = true := by
      rw [hp]
      show pinchStep true d = true
      simp [pinchStep, hoff]
    have hfst : (gestureFrame pw now (some (obsOf d)) s).1 = false := by
      rw [gestureFrame_some_fst, hstep, hv]
      rfl
    have hpinch2 : (gestureFrame pw now (some (obsOf d)) s).2.pinch_active
        = true := by
      rw [gestureFrame_some_pinch]
      exact hstep
    have hprev2 : (gestureFrame pw now (some (obsOf d)) s).2.prev_finger_bent
        = true := by
      rw [gestureFrame_some_prev]
      exact hstep
    have ihh := ih (gestureFrame pw now (some (obsOf d)) s).2 hpinch2 hprev2
      (fun x hx => h x (List.mem_cons_of_mem d hx))
    refine ⟨?_, ihh.2.1, ihh.2.2⟩
    show ((gestureFrame pw now (some (obsOf d)) s).1
        :: (runFrames pw now (ds.map obsOf)
              (gestureFrame pw now (some (obsOf d)) s).2).1)
      = List.replicate (ds.length + 1) false
    rw [hfst, ihh.1]
    rfl

theorem run_off (pw : ℚ → ℚ → ℚ) (now : Nat) :
    ∀ (ds : List ℚ) (s : PianoState),
      s.pinch_active = true →
      (∀ x ∈ ds, pinch_off_thresh ≤ x) →
      (runFrames pw now (ds.map obsOf) s).1 = List.replicate ds.length false := by
  intro ds s hp h
  cases ds with
  | nil => rfl
  | cons d ds =>
    have hd := h d (List.mem_cons_self d ds)
    have hstep : pinchStep s.pinch_active (obsOf d).dist = false := by
      rw [hp]
      show pinchStep true d = false
      simp [pinchStep, hd]
    have hfst : (gestureFrame pw now (some (obsOf d)) s).1 = false := by
      rw [gestureFrame_some_fst, hstep]
      simp
    have hpinch2 : (gestureFrame pw now (some (obsOf d)) s).2.pinch_active
        = false := by
      rw [gestureFrame_some_pinch]
      exact hstep
    have hprev2 : (gestureFrame pw now (some (obsOf d)) s).2.prev_finger_bent
        = false := by
      rw [gestureFrame_some_prev]
      exact hstep
    have htail := (run_inactive pw now ds
      (gestureFrame pw now (some (obsOf d)) s).2 hpinch2 hprev2
      (fun x hx => lt_of_lt_of_le
        (by norm_num [pinch_on_thresh, pinch_off_thresh])
        (h x (List.mem_cons_of_mem d hx)))).1
    show ((gestureFrame pw now (some (obsOf d)) s).1
        :: (runFrames pw now (ds.map obsOf)
              (gestureFrame pw now (some (obsOf d)) s).2).1)
      = List.replicate (ds.length + 1) false
    rw [hfst, htail]
    rfl

/-- C6: with the hand continuously detected, for a distance trace that
stays above the on threshold, then drops to or below it for N frames,
then rises to or above the off threshold, the click event is true on
exactly one frame, the first below-threshold frame, regardless of N.
Each frame the click event is the rising edge of the hysteresis state
and the previous flag is then updated, as runFrames composed of
detect_hand and check_click computes. -/
theorem single_click_edge_per_pinch :
    ∀ (pw : ℚ → ℚ → ℚ) (now : Nat) (a b c : List ℚ) (s : PianoState),
      s.pinch_active = false → s.prev_finger_bent = false →
      (∀ x ∈ a, pinch_on_thresh < x) →
      (∀ x ∈ b, x ≤ pinch_on_thresh) →
      (∀ x ∈ c, pinch_off_thresh ≤ x) →
      b ≠ [] →
      (runFrames pw now ((a ++ b ++ c).map obsOf) s).1
        = List.replicate a.length false
            ++ true :: List.replicate (b.length - 1 + c.length) false := by
  intro pw now a b c s hp hv ha hb hc hbne
  cases b with
  | nil => exact absurd rfl hbne
  | cons x b2 =>
    have hA := run_inactive pw now a s hp hv ha
    rw [List.append_assoc, List.map_append, runFrames_append_fst, hA.1]
    congr 1
    have hx := hb x (List.mem_cons_self x b2)
    have hstep : pinchStep (runFrames pw now (a.map obsOf) s).2.pinch_active
        (obsOf x).dist = true := by
      rw [hA.2.1]
      show pinchStep false x = true
      simp [pinchStep, hx]
    have hfst : (gestureFrame pw now (some (obsOf x))
        (runFrames pw now (a.map obsOf) s).2).1 = true := by
      rw [gestureFrame_some_fst, hstep, hA.2.2]
      rfl
    have hpinch : (gestureFrame pw now (some (obsOf x))
        (runFrames pw now (a.map obsOf) s).2).2.pinch_active = true := by
      rw [gestureFrame_some_pinch]
      exact hstep
    have hprev : (gestureFrame pw now (some (obsOf x))
        (runFrames pw now (a.map obsOf) s).2).2.prev_finger_bent = true := by
      rw [gestureFrame_some_prev]
      exact hstep
    have hB := run_active_low pw now b2 _ hpinch hprev
      (fun y hy => hb y (List.mem_cons_of_mem x hy))
    have hC := run_off pw now c _ hB.2.1 hc
    show ((gestureFrame pw now (some (obsOf x))
            (runFrames pw now (a.map obsOf) s).2).1
        :: (runFrames pw now ((b2 ++ c).map obsOf)
              (gestureFrame pw now (some (obsOf x))
                (runFrames pw now (a.map obsOf) s).2).2).1)
      = true :: List.replicate (b2.length + c.length) false
    rw [hfst, List.map_append, runFrames_append_fst, hB.1, hC,
      ← List.replicate_add]

/-- Witness for C6 on the concrete trace 0.1, 0.05, 0.06, 0.09: the
click fires exactly on the first below-threshold frame. -/
theorem single_click_edge_per_pinch_witness :
    (runFrames (fun x _ => x) 0
        (List.map obsOf [1/10, 5/100, 6/100, 9/100]) initState).1
      = [false, true, false, false] := by
  have h := single_click_edge_per_pinch (fun x _ => x) 0 [1/10] [5/100, 6/100]
    [9/100] initState rfl rfl
    (by intro x hx; fin_cases hx <;> norm_num [pinch_on_thresh])
    (by intro x hx; fin_cases hx <;> norm_num [pinch_on_thresh])
    (by intro x hx; fin_cases hx <;> norm_num [pinch_off_thresh])
    (by simp)
  exact h
